import Mathlib

/-!
# Verification of the pytubefix GUI shell (`src/main.py`)

A shallow embedding of the UI-orchestration code of the repository:
the two one-shot thread wrappers (`FetchThread`, `DownloadThread`),
filename construction/sanitization, the selection lookup, the
filename-confirmation dialog, and the window's event-driven state.

Python strings are modelled as `List Char` (`PyStr`); the Python string
methods used by the code (`strip`, `split`, `lower`, `endswith`,
`capitalize`, slicing, `in`) are given executable counterparts faithful
to CPython semantics on the ASCII data the program handles.  Floating
point values (`filesize_mb`) are never computed with by the code — they
are only rendered into text — so the rendered text is carried as data.
The external pytubefix library is an opaque collaborator: each wrapped
library call is summarised by its outcome (`Except` for a raised
exception, `Option`/values for what it returns).
-/

namespace Main

/-- Python `str`, modelled as its sequence of characters. -/
abbrev PyStr := List Char

/-- Embed a Lean string literal as a `PyStr`. -/
def pstr (s : String) : PyStr := s.data

/-- Python `str.lower`, restricted to the ASCII range the program handles. -/
def pyLower (s : PyStr) : PyStr := s.map Char.toLower

/-- Python `str.endswith`. -/
def pyEndswith (s suf : PyStr) : Bool := suf.isSuffixOf s

/-- Python `str.capitalize`: first character upper-cased, the rest lower-cased. -/
def pyCapitalize : PyStr → PyStr
  | [] => []
  | c :: cs => Char.toUpper c :: cs.map Char.toLower

/-- The default whitespace set of Python `str.strip`. -/
def pySpace (c : Char) : Bool :=
  c = ' ' ∨ c = '\t' ∨ c = '\n' ∨ c = '\x0d' ∨ c = '\x0b' ∨ c = '\x0c'

/-- Python `str.strip()` with no argument. -/
def pyStrip (s : PyStr) : PyStr :=
  ((s.dropWhile pySpace).reverse.dropWhile pySpace).reverse

/-- Split worker for `pySplit`, fuelled so that it is structural recursion;
`pySplit` supplies fuel covering the whole string. -/
def pySplitAux (sep : PyStr) : Nat → PyStr → PyStr → List PyStr
  | 0, acc, xs => [acc.reverse ++ xs]
  | _ + 1, acc, [] => [acc.reverse]
  | fuel + 1, acc, c :: cs =>
    if sep.isPrefixOf (c :: cs) then
      acc.reverse :: pySplitAux sep fuel [] (List.drop sep.length (c :: cs))
    else
      pySplitAux sep fuel (c :: acc) cs

/-- Python `str.split(sep)` for a non-empty separator. -/
def pySplit (s sep : PyStr) : List PyStr :=
  if sep = [] then [s] else pySplitAux sep s.length [] s

/-- Digit-string to number; `none` when empty or a non-digit occurs
(Python `int()` raising `ValueError`). -/
def pyDigits : PyStr → Option Nat
  | [] => none
  | ds => ds.foldl
      (fun acc c => match acc with
        | none => none
        | some n => if c.isDigit then some (n * 10 + (c.toNat - '0'.toNat)) else none)
      (some 0)

/-- Python `int(s)`: optional surrounding whitespace, optional sign, base-10
digits; anything else raises `ValueError`, modelled as `none`. -/
def pyToInt (s : PyStr) : Option Int :=
  match pyStrip s with
  | '-' :: ds => (pyDigits ds).map (fun n => -(n : Int))
  | '+' :: ds => (pyDigits ds).map (fun n => (n : Int))
  | ds => (pyDigits ds).map (fun n => (n : Int))

/-- Python truthiness of an optional string attribute: `None` and `""` are
falsy, every other string is truthy. -/
def pyTruthy : Option PyStr → Bool
  | some s => !s.isEmpty
  | none => false

/-- Python `str(n)` for an `int`. -/
def pyStrOfInt (n : Int) : PyStr := (toString n).data

/-- A pytubefix stream object, reduced to the attributes `src/main.py`
reads.  `abr` and `resolution` are `Option` because pytubefix yields
`None` for them on some streams (`None` and `""` are both falsy, which is
all the GUI code ever asks); `fps` may be absent (`getattr` default);
`filesize_mb` is a float that the GUI only renders with `:.2f`, so the
rendered text is carried as the attribute. -/
structure Stream where
  itag : Int
  type : PyStr
  subtype : PyStr
  title : PyStr
  abr : Option PyStr
  resolution : Option PyStr
  fps : Option Int
  mime_type : PyStr
  filesize_mb_str : PyStr
  is_adaptive : Bool
  is_progressive : Bool
  includes_audio_track : Bool
  includes_video_track : Bool
deriving DecidableEq, Repr

/-- A pytubefix caption track, reduced to the attributes read by the code. -/
structure Caption where
  name : PyStr
  code : PyStr
deriving DecidableEq, Repr

/-- The character class removed from titles by
`re.sub(r'[\\/*?:"<>|]', "", stream.title)` (main.py line 327). -/
def forbiddenTitleChars : List Char := ['\\', '/', '*', '?', ':', '"', '<', '>', '|']

/-- `valid_subtypes` (main.py line 343). -/
def valid_subtypes : List PyStr :=
  [pstr "mp4", pstr "webm", pstr "m4a", pstr "mp3", pstr "ogg", pstr "flv", pstr "avi"]

/-- The extension choice of `construct_filename` (main.py lines 339-346):
audio-only streams get `m4a`; otherwise the subtype when recognised,
`mp4` as the fallback. -/
def file_extension (s : Stream) : PyStr :=
  if s.type = pstr "audio" ∧ s.includes_video_track = false then pstr "m4a"
  else if s.subtype ∈ valid_subtypes then s.subtype else pstr "mp4"

/-- The joined, sanitized filename body of `construct_filename`
(main.py lines 322-337), before the extension and truncation. -/
def custom_filename (s : Stream) : PyStr :=
  let stream_type := if s.type = pstr "audio" then pstr "Audio" else pstr "Video"
  let bitrate :=
    if s.includes_audio_track = true ∧ pyTruthy s.abr = true then s.abr.getD []
    else pstr "N/A"
  let resolution :=
    if s.includes_video_track = true ∧ pyTruthy s.resolution = true then s.resolution.getD []
    else pstr "N/A"
  let base_title := s.title.filter (fun c => !forbiddenTitleChars.contains c)
  let parts0 := [base_title, stream_type, s.subtype]
  let parts1 :=
    if bitrate ≠ pstr "N/A" then
      parts0 ++ [if pyEndswith (pyLower bitrate) (pstr "kbps") then bitrate
                 else bitrate ++ pstr "kbps"]
    else parts0
  let parts2 := if resolution ≠ pstr "N/A" then parts1 ++ [resolution] else parts1
  List.intercalate (pstr "_") parts2

/-- `f"{custom_filename}.{file_extension}"` (main.py line 348). -/
def customFilenameWithExt (s : Stream) : PyStr :=
  custom_filename s ++ '.' :: file_extension s

/-- `MainWindow.construct_filename` (main.py lines 321-356): returns the
(possibly truncated) filename together with the chosen extension. -/
def construct_filename (s : Stream) : PyStr × PyStr :=
  let cfe := customFilenameWithExt s
  if 200 < cfe.length then
    (cfe.take (200 - ('.' :: file_extension s).length) ++ '.' :: file_extension s,
     file_extension s)
  else
    (cfe, file_extension s)

/-- `"Yes" if b else "No"`. -/
def pyYesNo (b : Bool) : PyStr := if b then pstr "Yes" else pstr "No"

/-- The `stream_info` f-string built for each stream in `FetchThread.run`
(main.py lines 52-62).  `fps` and `resolution` render as `N/A` when the
attribute is unavailable (the `getattr` default); the float filesize is
carried pre-rendered. -/
def renderStreamInfo (s : Stream) : PyStr :=
  pstr "Itag: " ++ pyStrOfInt s.itag ++
  pstr " | Type: " ++ pyCapitalize s.type ++
  pstr " | Resolution: " ++ s.resolution.getD (pstr "N/A") ++
  pstr " | FPS: " ++ (match s.fps with | some n => pyStrOfInt n | none => pstr "N/A") ++
  pstr " | Mime Type: " ++ s.mime_type ++
  pstr " | Filesize: " ++ s.filesize_mb_str ++ pstr " MB" ++
  pstr " | Adaptive: " ++ pyYesNo s.is_adaptive ++
  pstr " | Progressive: " ++ pyYesNo s.is_progressive ++
  pstr " | Audio: " ++ pyYesNo s.includes_audio_track ++
  pstr " | Video: " ++ pyYesNo s.includes_video_track

/-- The `for stream in yt.streams` loop of `FetchThread.run`
(main.py lines 48-64): accumulates `streams_info` and `streams_objects`
by appending, in iteration order. -/
def fetchLoop (ys : List Stream) : List PyStr × List Stream :=
  ys.foldl (fun acc stream => (acc.1 ++ [renderStreamInfo stream], acc.2 ++ [stream])) ([], [])

/-- `f"{caption.name} ({caption.code})"` (main.py line 68). -/
def renderCaption (c : Caption) : PyStr :=
  c.name ++ pstr " (" ++ c.code ++ pstr ")"

/-- What one successful execution of the `try` block of `FetchThread.run`
obtains from the external library: the iterated streams, the captions,
and the client before and after the fetch. -/
structure FetchResult where
  streams : List Stream
  captions : List Caption
  client_before : PyStr
  client_after : PyStr
deriving DecidableEq, Repr

/-- The Qt signals `FetchThread` can emit (main.py lines 32-34). -/
inductive FetchSignal where
  | finished (streams_info : List PyStr) (captions_info : List PyStr)
      (streams_objects : List Stream) (status : PyStr)
  | error (msg : PyStr)
  | client_switched (original_client : PyStr) (new_client : PyStr)
deriving DecidableEq, Repr

/-- `FetchThread.__init__` state (main.py lines 36-39). -/
structure FetchThread where
  url : PyStr
  use_oauth : Bool
deriving DecidableEq, Repr

/-- `FetchThread.run` (main.py lines 41-78), as the list of signals it
emits, in order, given the outcome of the wrapped external-library work:
`.error e` when any call in the `try` block raises (the handler emits
`error` with `str(e)`), `.ok r` when the block runs to completion. -/
def FetchThread.runSignals (_t : FetchThread) (o : Except PyStr FetchResult) :
    List FetchSignal :=
  match o with
  | .error e => [.error e]
  | .ok r =>
    (if r.client_after ≠ r.client_before then
       [.client_switched r.client_before r.client_after]
     else []) ++
    [.finished (fetchLoop r.streams).1 (r.captions.map renderCaption)
       (fetchLoop r.streams).2 (pstr "Data fetched successfully.")]

/-- Terminal signals of a fetch: `finished` and `error`;
`client_switched` is informational. -/
def isFetchTerminal : FetchSignal → Bool
  | .finished _ _ _ _ => true
  | .error _ => true
  | .client_switched _ _ => false

/-- Number of terminal signals in a fetch signal trace. -/
def fetchTerminalCount (sigs : List FetchSignal) : Nat :=
  (sigs.filter isFetchTerminal).length

/-- The Qt signals `DownloadThread` can emit (main.py lines 82-83);
both are terminal. -/
inductive DownloadSignal where
  | completed (file_path : PyStr)
  | error (msg : PyStr)
deriving DecidableEq, Repr

/-- `DownloadThread.__init__` (main.py lines 85-96), with the Python
default arguments as Lean field defaults. -/
structure DownloadThread where
  stream : Stream
  output_path : Option PyStr := none
  filename : Option PyStr := none
  filename_prefix : Option PyStr := none
  skip_existing : Bool := true
  timeout : Option Int := none
  max_retries : Int := 0
  interrupt_checker : Option Unit := none
deriving DecidableEq, Repr

/-- The keyword arguments `DownloadThread.run` passes to
`self.stream.download(...)` (main.py lines 101-109). -/
structure DownloadArgs where
  output_path : Option PyStr
  filename : Option PyStr
  filename_prefix : Option PyStr
  skip_existing : Bool
  timeout : Option Int
  max_retries : Int
  interrupt_checker : Option Unit
deriving DecidableEq, Repr

/-- The arguments of the `stream.download` call made by
`DownloadThread.run`: exactly the fields stored by `__init__`. -/
def DownloadThread.downloadCallArgs : DownloadThread → DownloadArgs
  | ⟨_, op, fn, fp, se, tmo, mr, ic⟩ => ⟨op, fn, fp, se, tmo, mr, ic⟩

/-- `DownloadThread.run` (main.py lines 98-118) as the list of signals it
emits given the outcome of `stream.download`: a raised exception emits
`error` with `str(e)`; a truthy returned path emits `completed`; a falsy
return (`None` or `""`) emits `error` with the skip message. -/
def DownloadThread.runSignals (_t : DownloadThread) (o : Except PyStr (Option PyStr)) :
    List DownloadSignal :=
  match o with
  | .error e => [.error e]
  | .ok downloaded_file =>
    if pyTruthy downloaded_file then [.completed (downloaded_file.getD [])]
    else [.error (pstr "Download was skipped or failed.")]

/-- The itag parse of `MainWindow.get_selected_stream`
(main.py lines 305-309): `int(itag_text.split(": ")[1])`, with `none`
for the caught `IndexError`/`ValueError`. -/
def parseItagFromRow (t : PyStr) : Option Int :=
  match (pySplit t (pstr ": "))[1]? with
  | none => none
  | some p => pyToInt p

/-- `MainWindow.get_selected_stream` (main.py lines 299-319), over the
texts of the currently selected tree rows and the stored
`streams_objects`; `Except.error` models a raised `ValueError`. -/
def get_selected_stream (selectedTexts : List PyStr) (streams_objects : List Stream) :
    Except PyStr Stream :=
  match selectedTexts with
  | [] => .error (pstr "Please select a stream to download.")
  | itag_text :: _ =>
    match parseItagFromRow itag_text with
    | none => .error (pstr "Invalid stream selection.")
    | some itag =>
      match streams_objects.find? (fun stream => stream.itag == itag) with
      | none => .error (pstr "Error: Could not find selected stream.")
      | some selected_stream => .ok selected_stream

/-- `MainWindow.get_confirmed_filename` (main.py lines 358-373).  The
dialog interaction is a parameter: the text the user leaves in the box
and whether they pressed OK.  `Except.error` models the `ValueError`
raised on cancel. -/
def get_confirmed_filename (proposed_filename file_extension : PyStr)
    (dialog : PyStr × Bool) : Except PyStr PyStr :=
  let confirmed_filename := dialog.1
  if dialog.2 = false then .error (pstr "Download canceled by the user.")
  else
    let confirmed1 :=
      if confirmed_filename ≠ [] ∧
         pyEndswith (pyLower confirmed_filename) ('.' :: file_extension) = false then
        confirmed_filename ++ '.' :: file_extension
      else confirmed_filename
    .ok (if confirmed1 ≠ [] then confirmed1 else proposed_filename)

/-- What one call of `MainWindow.download_selected_stream` decides:
either a download is started with a stream and confirmed filename, or a
`ValueError` was caught and reported (main.py lines 396-409). -/
inductive DSOutcome where
  | started (stream : Stream) (filename : PyStr)
  | veFailed (msg : PyStr)
deriving DecidableEq, Repr

/-- The `try` body of `MainWindow.download_selected_stream`
(main.py lines 396-411): select, construct, confirm, start. -/
def download_selected_stream (selectedTexts : List PyStr)
    (streams_objects : List Stream) (dialog : PyStr × Bool) : DSOutcome :=
  match get_selected_stream selectedTexts streams_objects with
  | .error m => .veFailed m
  | .ok selected_stream =>
    match get_confirmed_filename (construct_filename selected_stream).1
        (construct_filename selected_stream).2 dialog with
    | .error m => .veFailed m
    | .ok final_filename => .started selected_stream final_filename

/-- The `DownloadThread(stream=stream, filename=filename)` construction in
`MainWindow.start_download` (main.py lines 380-383): every other
parameter is left at its default. -/
def start_download_thread (stream : Stream) (filename : PyStr) : DownloadThread :=
  { stream := stream, filename := some filename }

/-- A row of the streams tree: the two fixed top-level items and one
child per stream, identified by its itag (main.py lines 238-250). -/
inductive TreeRow where
  | videoParent
  | audioParent
  | child (itag : Int)
deriving DecidableEq, Repr

/-- `text(0)` of a tree row (main.py lines 238-239 and 250). -/
def rowText : TreeRow → PyStr
  | .videoParent => pstr "Video Streams"
  | .audioParent => pstr "Audio Streams"
  | .child itag => pstr "Itag: " ++ pyStrOfInt itag

/-- The mutable state of `MainWindow` relevant to its behaviour: the
widget contents, the stored stream list, and whether each kind of
one-shot thread is currently running. -/
structure UiState where
  url_entry : PyStr
  use_oauth : Bool
  error_label : PyStr
  status_label : PyStr
  title_label : PyStr
  rows : List TreeRow
  selection : List TreeRow
  captions : List PyStr
  download_button_enabled : Bool
  streams_objects : List Stream
  download_thread : Option DownloadThread
  fetchRunning : Bool
  downloadRunning : Bool
deriving DecidableEq, Repr

/-- `MainWindow.__init__` (main.py lines 122-199). -/
def initState : UiState :=
  { url_entry := [], use_oauth := false, error_label := [],
    status_label :=
      pstr "Enter a YouTube URL and click Fetch Info to see available streams and captions.",
    title_label := [], rows := [], selection := [], captions := [],
    download_button_enabled := false, streams_objects := [], download_thread := none,
    fetchRunning := false, downloadRunning := false }

/-- `MainWindow.fetch_video_info` (main.py lines 201-218): empty URL sets
the error label; otherwise the view is cleared and a `FetchThread` is
started.  Clearing the tree clears the selection, and the code also
explicitly disables the download button. -/
def fetch_video_info (st : UiState) : UiState :=
  if pyStrip st.url_entry = [] then
    { st with error_label := pstr "Please enter a YouTube video URL." }
  else
    { st with status_label := pstr "Fetching data...",
              error_label := [], title_label := [],
              rows := [], selection := [], captions := [],
              download_button_enabled := false,
              fetchRunning := true }

/-- `MainWindow.show_client_switch` (main.py lines 220-225). -/
def show_client_switch (st : UiState) (original_client new_client : PyStr) : UiState :=
  { st with status_label :=
      (pstr "Client switched from " ++ original_client ++ pstr " to " ++ new_client ++
       pstr " to fetch video data.") }

/-- `MainWindow.update_info` (main.py lines 227-293): stores
`streams_objects`, sets the title from the first stream when non-empty,
rebuilds the tree (which clears any selection, disabling the download
button via `update_download_button_state`), appends the captions, sets
the status label and clears the error label.  The `streams_info` strings
are received but not used by this slot. -/
def update_info (st : UiState) (_streams_info : List PyStr)
    (captions_info : List PyStr) (streams_objects : List Stream)
    (status : PyStr) : UiState :=
  { st with
    streams_objects := streams_objects,
    title_label := match streams_objects with | s :: _ => s.title | [] => st.title_label,
    rows := TreeRow.videoParent :: TreeRow.audioParent ::
      streams_objects.map (fun s => TreeRow.child s.itag),
    selection := [],
    download_button_enabled :=
      if st.selection ≠ [] then false else st.download_button_enabled,
    captions := st.captions ++ captions_info,
    status_label := status,
    error_label := [] }

/-- `MainWindow.show_error` (main.py lines 427-430). -/
def show_error (st : UiState) (error : PyStr) : UiState :=
  { st with error_label := pstr "Error: " ++ error,
            status_label := pstr "Failed to fetch data." }

/-- `MainWindow.download_completed` (main.py lines 413-417). -/
def download_completed (st : UiState) (file_path : PyStr) : UiState :=
  { st with status_label := pstr "Download completed: " ++ file_path,
            download_button_enabled := true }

/-- `MainWindow.download_error` (main.py lines 419-425). -/
def download_error (st : UiState) (error_message : PyStr) : UiState :=
  { st with error_label := pstr "Error: " ++ error_message,
            status_label := pstr "Download failed.",
            download_button_enabled := true }

/-- `MainWindow.start_download` as a state update (main.py lines
375-387): status set, error cleared, button disabled, thread built with
only stream and filename, and started. -/
def start_download (st : UiState) (stream : Stream) (filename : PyStr) : UiState :=
  { st with status_label := pstr "Starting download as: " ++ filename,
            error_label := [],
            download_button_enabled := false,
            download_thread := some (start_download_thread stream filename),
            downloadRunning := true }

/-- Applying the outcome of `download_selected_stream` to the window:
the `started` branch runs `start_download`; the caught-`ValueError`
branch sets the two labels (main.py lines 404-409). -/
def applyDss (st : UiState) : DSOutcome → UiState
  | .started stream filename => start_download st stream filename
  | .veFailed msg =>
    { st with error_label := pstr "Error: " ++ msg,
              status_label := pstr "Download failed." }

/-- The external events that drive the window: user edits and clicks,
and the completion of a running thread with the outcome of its wrapped
library call. -/
inductive Event where
  | setUrl (u : PyStr)
  | setOauth (b : Bool)
  | clickFetch
  | select (sel : List TreeRow)
  | clickDownload (dialog : PyStr × Bool)
  | fetchDone (o : Except PyStr FetchResult)
  | downloadDone (o : Except PyStr (Option PyStr))

/-- One step of the application.  `select` is constrained to rows that
exist in the tree and runs `update_download_button_state` (main.py lines
295-297); a click on the disabled download button does nothing; thread
completion events only apply to a running thread, and dispatch the
thread's signals to the connected slots in emission order. -/
def step (st : UiState) : Event → UiState
  | .setUrl u => { st with url_entry := u }
  | .setOauth b => { st with use_oauth := b }
  | .clickFetch => fetch_video_info st
  | .select sel =>
    if sel.all (fun r => r ∈ st.rows) then
      { st with selection := sel, download_button_enabled := !sel.isEmpty }
    else st
  | .clickDownload dialog =>
    if st.download_button_enabled then
      applyDss st (download_selected_stream (st.selection.map rowText)
        st.streams_objects dialog)
    else st
  | .fetchDone o =>
    if st.fetchRunning then
      match o with
      | .error e => show_error { st with fetchRunning := false } e
      | .ok r =>
        let st1 := { st with fetchRunning := false }
        let st2 := if r.client_after ≠ r.client_before then
            show_client_switch st1 r.client_before r.client_after
          else st1
        update_info st2 (fetchLoop r.streams).1 (r.captions.map renderCaption)
          (fetchLoop r.streams).2 (pstr "Data fetched successfully.")
    else st
  | .downloadDone o =>
    if st.downloadRunning then
      let st1 := { st with downloadRunning := false }
      match o with
      | .error e => download_error st1 e
      | .ok downloaded_file =>
        if pyTruthy downloaded_file then download_completed st1 (downloaded_file.getD [])
        else download_error st1 (pstr "Download was skipped or failed.")
    else st

/-- The state after a sequence of events from the freshly built window. -/
def runTrace (evs : List Event) : UiState := evs.foldl step initState

/-- A concrete progressive video stream, used for witnesses. -/
def demoStream : Stream :=
  { itag := 22, type := pstr "video", subtype := pstr "mp4", title := pstr "Demo",
    abr := some (pstr "128kbps"), resolution := some (pstr "720p"), fps := some 30,
    mime_type := pstr "video/mp4", filesize_mb_str := pstr "10.00",
    is_adaptive := false, is_progressive := true,
    includes_audio_track := true, includes_video_track := true }

/-- A stream agreeing with `demoStream` on every attribute
`construct_filename` reads, but differing elsewhere. -/
def demoStreamAlt : Stream :=
  { demoStream with
    itag := 23
    mime_type := pstr "video/alt"
    filesize_mb_str := pstr "11.00"
    fps := some 60 }

/-- A concrete audio-only stream, used for witnesses. -/
def demoAudioStream : Stream :=
  { demoStream with
    itag := 140
    type := pstr "audio"
    subtype := pstr "webm"
    resolution := none
    fps := none
    mime_type := pstr "audio/webm"
    is_adaptive := true
    is_progressive := false
    includes_video_track := false }

/-- A stream whose title forces the filename over 200 characters. -/
def demoLongStream : Stream :=
  { demoStream with title := List.replicate 260 'a' }

/-- A concrete download thread as `start_download` builds it. -/
def demoDownloadThread : DownloadThread :=
  start_download_thread demoStream (pstr "Demo.mp4")

/-- A concrete fetch thread. -/
def demoFetchThread : FetchThread := { url := pstr "u", use_oauth := false }

/-- A successful fetch outcome carrying one stream and no client switch. -/
def demoFetchResult : FetchResult :=
  { streams := [demoStream], captions := [],
    client_before := pstr "WEB", client_after := pstr "WEB" }

/-- An event sequence in which the user fetches, selects the stream,
confirms a download, and — while the download thread is still running —
clicks Fetch Info again. -/
def overlapEvents : List Event :=
  [.setUrl (pstr "u"), .clickFetch, .fetchDone (.ok demoFetchResult),
   .select [.child 22], .clickDownload (pstr "", true), .clickFetch]

/-- The same interaction up to (and excluding) the download click. -/
def preDownloadEvents : List Event :=
  [.setUrl (pstr "u"), .clickFetch, .fetchDone (.ok demoFetchResult),
   .select [.child 22]]

/-! ## Helper lemmas -/

/-- `pyEndswith` agrees with list suffixes. -/
theorem pyEndswith_iff {s suf : PyStr} : pyEndswith s suf = true ↔ suf <:+ s := by
  simp [pyEndswith]

/-- `pyLower` distributes over concatenation. -/
theorem pyLower_append (a b : PyStr) : pyLower (a ++ b) = pyLower a ++ pyLower b :=
  List.map_append Char.toLower a b

/-- Every extension `construct_filename` can return has at most 4 characters. -/
theorem file_extension_length (s : Stream) : (file_extension s).length ≤ 4 := by
  unfold file_extension
  split
  · decide
  · split
    · next h =>
      simp only [valid_subtypes, List.mem_cons, List.not_mem_nil, or_false] at h
      rcases h with h | h | h | h | h | h | h <;> rw [h] <;> decide
    · decide

/-- Every extension `construct_filename` can return is already lower-case. -/
theorem file_extension_lower (s : Stream) : pyLower (file_extension s) = file_extension s := by
  unfold file_extension
  split
  · decide
  · split
    · next h =>
      simp only [valid_subtypes, List.mem_cons, List.not_mem_nil, or_false] at h
      rcases h with h | h | h | h | h | h | h <;> rw [h] <;> decide
    · decide

/-- The fetch loop appends each stream to the accumulator in order. -/
theorem fetchLoop_aux (ys : List Stream) (a : List PyStr) (b : List Stream) :
    (ys.foldl (fun acc stream => (acc.1 ++ [renderStreamInfo stream], acc.2 ++ [stream]))
      (a, b)).2 = b ++ ys := by
  induction ys generalizing a b with
  | nil => simp
  | cons y ys ih => simp [List.foldl_cons, ih]

/-- The `streams_objects` accumulated by the fetch loop are exactly the
iterated streams. -/
theorem fetchLoop_snd (ys : List Stream) : (fetchLoop ys).2 = ys := by
  simpa [fetchLoop] using fetchLoop_aux ys [] []

/-! ## Claims -/

/-- C6: `construct_filename` is a pure, deterministic function of the
stream attributes it reads (`type`, `subtype`, `abr`, `resolution`,
`title`, `includes_audio_track`, `includes_video_track`): two streams
equal on those attributes yield equal (filename, extension) pairs. -/
theorem construct_filename_deterministic (s₁ s₂ : Stream)
    (ht : s₁.type = s₂.type) (hsub : s₁.subtype = s₂.subtype)
    (habr : s₁.abr = s₂.abr) (hres : s₁.resolution = s₂.resolution)
    (htit : s₁.title = s₂.title)
    (ha : s₁.includes_audio_track = s₂.includes_audio_track)
    (hv : s₁.includes_video_track = s₂.includes_video_track) :
    construct_filename s₁ = construct_filename s₂ := by
  obtain ⟨i₁, t₁, u₁, n₁, a₁, r₁, f₁, m₁, z₁, d₁, p₁, x₁, y₁⟩ := s₁
  obtain ⟨i₂, t₂, u₂, n₂, a₂, r₂, f₂, m₂, z₂, d₂, p₂, x₂, y₂⟩ := s₂
  simp only at ht hsub habr hres htit ha hv
  subst ht hsub habr hres htit ha hv
  rfl

/-- Witness for C6: the two demo streams agree on the attributes read by
`construct_filename` and differ elsewhere, and get the same filename. -/
theorem construct_filename_deterministic_witness :
    construct_filename demoStream = construct_filename demoStreamAlt :=
  construct_filename_deterministic demoStream demoStreamAlt rfl rfl rfl rfl rfl rfl rfl

/-- C9: the extension policy of `construct_filename`: `m4a` for streams
of type `audio` with no video track, the subtype when it is a recognised
subtype, and `mp4` otherwise. -/
theorem file_extension_policy (s : Stream) :
    (s.type = pstr "audio" ∧ s.includes_video_track = false →
       file_extension s = pstr "m4a") ∧
    (¬(s.type = pstr "audio" ∧ s.includes_video_track = false) →
       (s.subtype ∈ valid_subtypes → file_extension s = s.subtype) ∧
       (s.subtype ∉ valid_subtypes → file_extension s = pstr "mp4")) := by
  unfold file_extension
  by_cases h : s.type = pstr "audio" ∧ s.includes_video_track = false
  · rw [if_pos h]
    exact ⟨fun _ => rfl, fun hn => absurd h hn⟩
  · rw [if_neg h]
    refine ⟨fun hc => absurd hc h, fun _ => ⟨fun hm => ?_, fun hm => ?_⟩⟩
    · rw [if_pos hm]
    · rw [if_neg hm]

/-- Witness for C9: the audio-only demo stream has subtype `webm` yet
gets extension `m4a`. -/
theorem file_extension_policy_witness :
    file_extension demoAudioStream = pstr "m4a" :=
  (file_extension_policy demoAudioStream).1 ⟨rfl, rfl⟩

/-- C8: the filename returned by `construct_filename` is at most 200
characters long and ends with a dot followed by the returned extension;
when the untruncated name exceeds 200 characters the result is exactly
200 characters long. -/
theorem construct_filename_length (s : Stream) :
    (construct_filename s).1.length ≤ 200 ∧
    pyEndswith (construct_filename s).1 ('.' :: (construct_filename s).2) = true ∧
    (200 < (customFilenameWithExt s).length → (construct_filename s).1.length = 200) := by
  have hext : (file_extension s).length ≤ 4 := file_extension_length s
  unfold construct_filename
  by_cases h : 200 < (customFilenameWithExt s).length
  · rw [if_pos h]
    simp only
    have hlen : ((customFilenameWithExt s).take
        (200 - ('.' :: file_extension s).length) ++ '.' :: file_extension s).length = 200 := by
      rw [List.length_append, List.length_take]
      simp only [List.length_cons]
      omega
    refine ⟨le_of_eq hlen, ?_, fun _ => hlen⟩
    rw [pyEndswith_iff]
    exact List.suffix_append _ _
  · rw [if_neg h]
    simp only
    refine ⟨by omega, ?_, fun hc => absurd hc h⟩
    rw [pyEndswith_iff]
    unfold customFilenameWithExt
    exact List.suffix_append _ _

set_option maxRecDepth 8192 in
/-- Witness for C8: the long-title demo stream overflows the limit and is
truncated to exactly 200 characters. -/
theorem construct_filename_length_witness :
    200 < (customFilenameWithExt demoLongStream).length ∧
    (construct_filename demoLongStream).1.length = 200 :=
  ⟨by decide, (construct_filename_length demoLongStream).2.2 (by decide)⟩

/-- Lower-casing fixes the dot-plus-extension suffix when the extension
is already lower-case. -/
theorem pyLower_dot_ext {ext : PyStr} (hlow : pyLower ext = ext) :
    pyLower ('.' :: ext) = '.' :: ext := by
  have h1 : pyLower ('.' :: ext) = Char.toLower '.' :: pyLower ext := rfl
  rw [h1, hlow, show Char.toLower '.' = '.' by decide]

/-- The result of `get_confirmed_filename` when the user presses OK. -/
theorem get_confirmed_filename_ok_cases (proposed ext confirmed : PyStr) :
    get_confirmed_filename proposed ext (confirmed, true) =
      (if confirmed ≠ [] ∧ pyEndswith (pyLower confirmed) ('.' :: ext) = false then
         Except.ok (confirmed ++ '.' :: ext)
       else if confirmed ≠ [] then Except.ok confirmed else Except.ok proposed) := by
  unfold get_confirmed_filename
  by_cases hn : confirmed = []
  · subst hn
    simp
  · by_cases he : pyEndswith (pyLower confirmed) ('.' :: ext) = false
    · simp [hn, he]
    · simp [hn, he]

/-- `get_confirmed_filename` raises `ValueError` when the dialog is
cancelled (main.py lines 366-367). -/
theorem get_confirmed_filename_cancel (p e : PyStr) (dialog : PyStr × Bool)
    (h : dialog.2 = false) :
    get_confirmed_filename p e dialog = .error (pstr "Download canceled by the user.") := by
  unfold get_confirmed_filename
  simp [h]

/-- When the dialog is cancelled, `download_selected_stream` always ends
in the caught-`ValueError` branch. -/
theorem download_selected_stream_cancel (texts : List PyStr) (so : List Stream)
    (dialog : PyStr × Bool) (h : dialog.2 = false) :
    ∃ m, download_selected_stream texts so dialog = .veFailed m := by
  cases hg : get_selected_stream texts so with
  | error m => exact ⟨m, by simp [download_selected_stream, hg]⟩
  | ok s =>
    refine ⟨pstr "Download canceled by the user.", ?_⟩
    simp [download_selected_stream, hg, get_confirmed_filename_cancel _ _ _ h]

/-- C10: given a proposed filename ending in `.` plus the (lower-case)
extension, `get_confirmed_filename` either raises `ValueError` on cancel
or returns a non-empty filename that ends case-insensitively with `.`
plus the extension; a user-edited name missing the extension has it
appended, and an empty confirmation falls back to the proposal. -/
theorem get_confirmed_filename_spec (proposed ext : PyStr) (dialog : PyStr × Bool)
    (hlow : pyLower ext = ext)
    (hp : pyEndswith proposed ('.' :: ext) = true) :
    (dialog.2 = false →
       get_confirmed_filename proposed ext dialog =
         .error (pstr "Download canceled by the user.")) ∧
    (∀ f, get_confirmed_filename proposed ext dialog = .ok f →
       f ≠ [] ∧ pyEndswith (pyLower f) ('.' :: ext) = true) ∧
    (dialog.2 = true → dialog.1 ≠ [] →
       pyEndswith (pyLower dialog.1) ('.' :: ext) = false →
       get_confirmed_filename proposed ext dialog = .ok (dialog.1 ++ '.' :: ext)) ∧
    (dialog = ([], true) → get_confirmed_filename proposed ext dialog = .ok proposed) := by
  obtain ⟨confirmed, ok⟩ := dialog
  have hdot : pyLower ('.' :: ext) = '.' :: ext := pyLower_dot_ext hlow
  obtain ⟨t, ht⟩ := pyEndswith_iff.mp hp
  have hpl : pyEndswith (pyLower proposed) ('.' :: ext) = true := by
    rw [pyEndswith_iff, ← ht, pyLower_append, hdot]
    exact List.suffix_append _ _
  have hpne : proposed ≠ [] := by
    rw [← ht]
    simp
  cases ok with
  | false =>
    refine ⟨fun _ => get_confirmed_filename_cancel _ _ _ rfl, ?_, by simp, by simp⟩
    intro f hf
    rw [get_confirmed_filename_cancel _ _ _ rfl] at hf
    exact absurd hf (by simp)
  | true =>
    rw [get_confirmed_filename_ok_cases]
    by_cases hc : confirmed ≠ [] ∧ pyEndswith (pyLower confirmed) ('.' :: ext) = false
    · rw [if_pos hc]
      refine ⟨by simp, ?_, fun _ _ _ => rfl, ?_⟩
      · intro f hf
        have hf' : confirmed ++ '.' :: ext = f := by simpa using hf
        subst hf'
        refine ⟨by simp, ?_⟩
        rw [pyEndswith_iff, pyLower_append, hdot]
        exact List.suffix_append _ _
      · intro habs
        have : confirmed = [] := by simpa using congrArg Prod.fst habs
        exact absurd this hc.1
    · rw [if_neg hc]
      by_cases hn : confirmed ≠ []
      · rw [if_pos hn]
        have hend : pyEndswith (pyLower confirmed) ('.' :: ext) = true := by
          rcases not_and_or.mp hc with h | h
          · exact absurd hn h
          · simpa using h
        refine ⟨by simp, ?_, ?_, ?_⟩
        · intro f hf
          have hf' : confirmed = f := by simpa using hf
          subst hf'
          exact ⟨hn, hend⟩
        · intro _ _ hfalse
          rw [hend] at hfalse
          cases hfalse
        · intro habs
          have : confirmed = [] := by simpa using congrArg Prod.fst habs
          exact absurd this hn
      · rw [if_neg hn]
        have hn' : confirmed = [] := by simpa using hn
        refine ⟨by simp, ?_, ?_, fun _ => rfl⟩
        · intro f hf
          have hf' : proposed = f := by simpa using hf
          subst hf'
          exact ⟨hpne, hpl⟩
        · intro _ hne
          exact absurd hn' hne

/-- Witness for C10: with proposal `a.mp4` and the user editing the box
to `b`, the extension is appended. -/
theorem get_confirmed_filename_spec_witness :
    get_confirmed_filename (pstr "a.mp4") (pstr "mp4") (pstr "b", true) =
      .ok (pstr "b" ++ '.' :: pstr "mp4") :=
  (get_confirmed_filename_spec (pstr "a.mp4") (pstr "mp4") (pstr "b", true)
    (by decide) (by decide)).2.2.1 rfl (by decide) (by decide)

/-- C2: `get_selected_stream` returns only a stream from the stored
`streams_objects`, the first one whose itag equals the itag parsed from
the selected row; with no selection, an unparsable row (the two
top-level rows in particular), or an itag no fetched stream has, it
raises `ValueError`. -/
theorem get_selected_stream_spec (selectedTexts : List PyStr)
    (streams_objects : List Stream) :
    (∀ st, get_selected_stream selectedTexts streams_objects = .ok st →
       st ∈ streams_objects ∧
       ∃ t rest, selectedTexts = t :: rest ∧ parseItagFromRow t = some st.itag) ∧
    (selectedTexts = [] →
       get_selected_stream selectedTexts streams_objects =
         .error (pstr "Please select a stream to download.")) ∧
    (∀ t rest, selectedTexts = t :: rest → parseItagFromRow t = none →
       get_selected_stream selectedTexts streams_objects =
         .error (pstr "Invalid stream selection.")) ∧
    (∀ t rest n, selectedTexts = t :: rest → parseItagFromRow t = some n →
       (∀ st ∈ streams_objects, st.itag ≠ n) →
       get_selected_stream selectedTexts streams_objects =
         .error (pstr "Error: Could not find selected stream.")) ∧
    parseItagFromRow (rowText TreeRow.videoParent) = none ∧
    parseItagFromRow (rowText TreeRow.audioParent) = none := by
  refine ⟨?_, ?_, ?_, ?_, by decide, by decide⟩
  · intro st h
    cases selectedTexts with
    | nil => simp [get_selected_stream] at h
    | cons t rest =>
      simp only [get_selected_stream] at h
      cases hpt : parseItagFromRow t with
      | none => simp only [hpt] at h; simp at h
      | some n =>
        simp only [hpt] at h
        cases hf : streams_objects.find? (fun stream => stream.itag == n) with
        | none => simp only [hf] at h; simp at h
        | some s' =>
          simp only [hf] at h
          have hs : s' = st := by simpa using h
          subst hs
          have hitag : s'.itag = n := by simpa using List.find?_some hf
          exact ⟨List.mem_of_find?_eq_some hf, t, rest, rfl, by rw [hpt, hitag]⟩
  · intro h
    subst h
    rfl
  · intro t rest hsel hpt
    subst hsel
    simp only [get_selected_stream, hpt]
  · intro t rest n hsel hpt hnone
    subst hsel
    have hf : streams_objects.find? (fun stream => stream.itag == n) = none := by
      rw [List.find?_eq_none]
      intro x hx
      simpa using hnone x hx
    simp only [get_selected_stream, hpt, hf]

/-- Witness for C2: the row `Itag: 22` selects the demo stream from the
fetched list. -/
theorem get_selected_stream_spec_witness :
    demoStream ∈ [demoStream] ∧
    ∃ t rest, [pstr "Itag: 22"] = t :: rest ∧
      parseItagFromRow t = some demoStream.itag :=
  (get_selected_stream_spec [pstr "Itag: 22"] [demoStream]).1 demoStream rfl

/-- C3: a download thread starts only after the user confirms the
filename: cancelling the dialog makes `get_confirmed_filename` raise
`ValueError`, `download_selected_stream` never reaches `start_download`,
the error and status labels are set instead, and `start_download` is
reached only with a filename returned by `get_confirmed_filename`. -/
theorem download_confirmation_required (selectedTexts : List PyStr)
    (streams_objects : List Stream) (dialog : PyStr × Bool) :
    (dialog.2 = false →
       (∀ p e, get_confirmed_filename p e dialog =
          .error (pstr "Download canceled by the user.")) ∧
       (∀ s f, download_selected_stream selectedTexts streams_objects dialog ≠
          .started s f) ∧
       ∃ m, download_selected_stream selectedTexts streams_objects dialog =
          .veFailed m) ∧
    (∀ s f, download_selected_stream selectedTexts streams_objects dialog =
        .started s f →
       get_selected_stream selectedTexts streams_objects = .ok s ∧
       get_confirmed_filename (construct_filename s).1 (construct_filename s).2
         dialog = .ok f) ∧
    (∀ (st : UiState) m,
       (applyDss st (.veFailed m)).error_label = pstr "Error: " ++ m ∧
       (applyDss st (.veFailed m)).status_label = pstr "Download failed." ∧
       (applyDss st (.veFailed m)).downloadRunning = st.downloadRunning ∧
       (applyDss st (.veFailed m)).download_thread = st.download_thread) ∧
    (∀ st : UiState, dialog.2 = false →
       (step st (.clickDownload dialog)).downloadRunning = st.downloadRunning ∧
       (step st (.clickDownload dialog)).download_thread = st.download_thread) := by
  have hstarted : ∀ s f,
      download_selected_stream selectedTexts streams_objects dialog = .started s f →
      get_selected_stream selectedTexts streams_objects = .ok s ∧
      get_confirmed_filename (construct_filename s).1 (construct_filename s).2
        dialog = .ok f := by
    intro s f h
    cases hg : get_selected_stream selectedTexts streams_objects with
    | error m => simp [download_selected_stream, hg] at h
    | ok s' =>
      simp only [download_selected_stream, hg] at h
      cases hc : get_confirmed_filename (construct_filename s').1
          (construct_filename s').2 dialog with
      | error m => rw [hc] at h; simp at h
      | ok f' =>
        rw [hc] at h
        have h' : s' = s ∧ f' = f := by simpa using h
        obtain ⟨h1, h2⟩ := h'
        subst h1
        subst h2
        exact ⟨rfl, hc⟩
  refine ⟨?_, hstarted, fun st m => ⟨rfl, rfl, rfl, rfl⟩, ?_⟩
  · intro hfalse
    obtain ⟨m, hm⟩ :=
      download_selected_stream_cancel selectedTexts streams_objects dialog hfalse
    refine ⟨fun p e => get_confirmed_filename_cancel p e dialog hfalse, ?_, m, hm⟩
    intro s f hsf
    rw [hm] at hsf
    exact absurd hsf (by simp)
  · intro st hfalse
    simp only [step]
    by_cases hb : st.download_button_enabled
    · obtain ⟨m, hm⟩ := download_selected_stream_cancel (st.selection.map rowText)
        st.streams_objects dialog hfalse
      rw [if_pos hb, hm]
      exact ⟨rfl, rfl⟩
    · rw [if_neg hb]
      exact ⟨rfl, rfl⟩

/-- Witness for C3: a cancelled dialog makes the confirmation raise
`ValueError`. -/
theorem download_confirmation_required_witness :
    get_confirmed_filename (pstr "a.mp4") (pstr "mp4") (pstr "x", false) =
      .error (pstr "Download canceled by the user.") :=
  ((download_confirmation_required [pstr "Itag: 22"] [demoStream]
    (pstr "x", false)).1 rfl).1 (pstr "a.mp4") (pstr "mp4")

/-- C7: `start_download` builds the `DownloadThread` with only the stream
and the filename, so the external `download` call receives
`output_path=None`, `filename_prefix=None`, `skip_existing=True`,
`timeout=None`, `max_retries=0`; on failure the only action is reporting
the exception text to the user. -/
theorem start_download_defaults (stream : Stream) (filename : PyStr) :
    start_download_thread stream filename =
      ⟨stream, none, some filename, none, true, none, 0, none⟩ ∧
    DownloadThread.downloadCallArgs (start_download_thread stream filename) =
      ⟨none, some filename, none, true, none, 0, none⟩ ∧
    (∀ e, DownloadThread.runSignals (start_download_thread stream filename)
        (.error e) = [.error e]) ∧
    (∀ (st : UiState) (e : PyStr),
       (download_error st e).error_label = pstr "Error: " ++ e ∧
       (download_error st e).status_label = pstr "Download failed." ∧
       (download_error st e).streams_objects = st.streams_objects ∧
       (download_error st e).downloadRunning = st.downloadRunning ∧
       (download_error st e).download_thread = st.download_thread) :=
  ⟨rfl, rfl, fun _ => rfl, fun _ _ => ⟨rfl, rfl, rfl, rfl, rfl⟩⟩

/-- C4: the fetch loop yields `streams_objects` exactly equal to the
iterated streams, the `finished` signal carries that list, and
`update_info` stores the received list wholesale, whatever was stored
before. -/
theorem streams_objects_verbatim :
    (∀ ys : List Stream, (fetchLoop ys).2 = ys) ∧
    (∀ (t : FetchThread) (r : FetchResult),
       (FetchThread.runSignals t (.ok r)).getLast? =
         some (.finished (fetchLoop r.streams).1 (r.captions.map renderCaption)
           r.streams (pstr "Data fetched successfully."))) ∧
    (∀ (st : UiState) (si ci : List PyStr) (so : List Stream) (status : PyStr),
       (update_info st si ci so status).streams_objects = so) := by
  refine ⟨fetchLoop_snd, ?_, fun st si ci so status => rfl⟩
  intro t r
  unfold FetchThread.runSignals
  rw [List.getLast?_concat, fetchLoop_snd]

/-- C1 counterexample: when `stream.download` returns `None` — no
exception raised — `DownloadThread.run` emits the error signal with the
skip message rather than the success signal `completed`, so "if no
exception, the success signal is emitted" fails on this input. -/
theorem download_run_skip_counterexample :
    DownloadThread.runSignals demoDownloadThread (Except.ok none) =
      [DownloadSignal.error (pstr "Download was skipped or failed.")] := rfl

/-- C1 (amended): each run emits exactly one terminal signal; an
exception is caught and emits the error signal with `str(e)`; a
completed fetch emits `finished` (after at most one informational
`client_switched`); a download that returns a truthy path emits
`completed`, and one that returns a falsy result emits the error signal
with the skip message. -/
theorem run_terminal_signals :
    (∀ (t : FetchThread) (o : Except PyStr FetchResult),
       fetchTerminalCount (FetchThread.runSignals t o) = 1) ∧
    (∀ (t : FetchThread) (e : PyStr),
       FetchThread.runSignals t (.error e) = [.error e]) ∧
    (∀ (t : FetchThread) (r : FetchResult),
       (FetchThread.runSignals t (.ok r)).getLast? =
         some (.finished (fetchLoop r.streams).1 (r.captions.map renderCaption)
           (fetchLoop r.streams).2 (pstr "Data fetched successfully.")) ∧
       ∀ e, FetchSignal.error e ∉ FetchThread.runSignals t (.ok r)) ∧
    (∀ (t : DownloadThread) (o : Except PyStr (Option PyStr)),
       (DownloadThread.runSignals t o).length = 1) ∧
    (∀ (t : DownloadThread) (e : PyStr),
       DownloadThread.runSignals t (.error e) = [.error e]) ∧
    (∀ (t : DownloadThread) (f : PyStr), f ≠ [] →
       DownloadThread.runSignals t (.ok (some f)) = [.completed f]) ∧
    (∀ (t : DownloadThread) (r : Option PyStr), pyTruthy r = false →
       DownloadThread.runSignals t (.ok r) =
         [.error (pstr "Download was skipped or failed.")]) := by
  refine ⟨?_, fun t e => rfl, ?_, ?_, fun t e => rfl, ?_, ?_⟩
  · intro t o
    cases o with
    | error e => rfl
    | ok r =>
      simp only [FetchThread.runSignals]
      by_cases h : r.client_after ≠ r.client_before
      · rw [if_pos h]
        rfl
      · rw [if_neg h]
        rfl
  · intro t r
    constructor
    · simp only [FetchThread.runSignals]
      rw [List.getLast?_concat]
    · intro e
      simp only [FetchThread.runSignals]
      by_cases h : r.client_after ≠ r.client_before
      · rw [if_pos h]
        simp
      · rw [if_neg h]
        simp
  · intro t o
    cases o with
    | error e => rfl
    | ok r =>
      simp only [DownloadThread.runSignals]
      by_cases h : pyTruthy r = true
      · rw [if_pos h]
        rfl
      · rw [if_neg h]
        rfl
  · intro t f hf
    cases f with
    | nil => exact absurd rfl hf
    | cons c cs => rfl
  · intro t r h
    simp only [DownloadThread.runSignals]
    rw [if_neg (by simp [h])]

/-- Witness for the amended C1: a truthy returned path gives exactly the
`completed` signal. -/
theorem run_terminal_signals_witness :
    DownloadThread.runSignals demoDownloadThread (.ok (some (pstr "Demo.mp4"))) =
      [DownloadSignal.completed (pstr "Demo.mp4")] :=
  run_terminal_signals.2.2.2.2.2.1 demoDownloadThread (pstr "Demo.mp4") (by decide)

/-- C5 counterexample: after a fetch completes, the user selects the
stream and confirms a download; while the download thread is running,
clicking Fetch Info starts a fetch thread — both threads run at once,
because the fetch button is never disabled. -/
theorem fetch_download_overlap_counterexample :
    (runTrace overlapEvents).fetchRunning = true ∧
    (runTrace overlapEvents).downloadRunning = true := by
  constructor <;> rfl

/-- While a fetch is running, the streams tree is empty and nothing is
selected: one step preserves this. -/
theorem fetch_clears_selection_step (st : UiState) (e : Event)
    (h : st.fetchRunning = true → st.rows = [] ∧ st.selection = []) :
    (step st e).fetchRunning = true →
      (step st e).rows = [] ∧ (step st e).selection = [] := by
  cases e with
  | setUrl u => exact h
  | setOauth b => exact h
  | clickFetch =>
    simp only [step]
    unfold fetch_video_info
    by_cases hu : pyStrip st.url_entry = []
    · rw [if_pos hu]
      exact h
    · rw [if_neg hu]
      intro
      exact ⟨rfl, rfl⟩
  | select sel =>
    simp only [step]
    by_cases hm : sel.all (fun r => r ∈ st.rows)
    · rw [if_pos hm]
      intro hf
      obtain ⟨hrows, _⟩ := h hf
      refine ⟨hrows, ?_⟩
      cases sel with
      | nil => rfl
      | cons a as =>
        rw [hrows] at hm
        simp [List.all_cons] at hm
    · rw [if_neg hm]
      exact h
  | clickDownload d =>
    simp only [step]
    by_cases hb : st.download_button_enabled
    · rw [if_pos hb]
      cases hd : download_selected_stream (st.selection.map rowText)
          st.streams_objects d with
      | started s f => exact h
      | veFailed m => exact h
    · rw [if_neg hb]
      exact h
  | fetchDone o =>
    simp only [step]
    by_cases hr : st.fetchRunning
    · rw [if_pos hr]
      cases o with
      | error e2 =>
        intro hf
        simp [show_error] at hf
      | ok r =>
        intro hf
        simp only [update_info] at hf
        split at hf <;> simp [show_client_switch] at hf
    · rw [if_neg hr]
      exact h
  | downloadDone o =>
    cases o with
    | error e2 =>
      simp only [step]
      by_cases hr : st.downloadRunning
      · rw [if_pos hr]
        exact h
      · rw [if_neg hr]
        exact h
    | ok r =>
      simp only [step]
      by_cases hr : st.downloadRunning
      · rw [if_pos hr]
        by_cases ht : pyTruthy r = true
        · rw [if_pos ht]
          exact h
        · rw [if_neg ht]
          exact h
      · rw [if_neg hr]
        exact h

/-- The invariant transported along a whole event sequence. -/
theorem fetch_clears_selection_fold (evs : List Event) (st : UiState)
    (h : st.fetchRunning = true → st.rows = [] ∧ st.selection = []) :
    (evs.foldl step st).fetchRunning = true →
      (evs.foldl step st).rows = [] ∧ (evs.foldl step st).selection = [] := by
  induction evs generalizing st with
  | nil => exact h
  | cons e evs ih => exact ih (step st e) (fetch_clears_selection_step st e h)

/-- In every reachable state, a running fetch implies empty tree and
empty selection. -/
theorem fetch_clears_selection (evs : List Event) :
    (runTrace evs).fetchRunning = true →
      (runTrace evs).rows = [] ∧ (runTrace evs).selection = [] :=
  fetch_clears_selection_fold evs initState (fun h => absurd h (by decide))

/-- C5 (amended): a download thread is never started while a fetch is
running — in any reachable state, a step that turns `downloadRunning` on
can only happen with `fetchRunning` off (during a fetch the tree is
empty, so no stream can be selected).  The converse fails: a fetch may
start while a download runs (see the overlap trace). -/
theorem no_download_start_during_fetch (evs : List Event) (e : Event)
    (h1 : (runTrace evs).downloadRunning = false)
    (h2 : (step (runTrace evs) e).downloadRunning = true) :
    (runTrace evs).fetchRunning = false := by
  by_cases hf : (runTrace evs).fetchRunning = true
  case neg => simpa using hf
  case pos =>
    exfalso
    obtain ⟨hrows, hsel⟩ := fetch_clears_selection evs hf
    cases e with
    | setUrl u => exact Bool.false_ne_true (h1.symm.trans h2)
    | setOauth b => exact Bool.false_ne_true (h1.symm.trans h2)
    | clickFetch =>
      simp only [step] at h2
      unfold fetch_video_info at h2
      split at h2 <;> exact Bool.false_ne_true (h1.symm.trans h2)
    | select sel =>
      simp only [step] at h2
      split at h2 <;> exact Bool.false_ne_true (h1.symm.trans h2)
    | clickDownload d =>
      simp only [step] at h2
      by_cases hb : (runTrace evs).download_button_enabled
      · rw [if_pos hb, hsel] at h2
        exact Bool.false_ne_true (h1.symm.trans h2)
      · rw [if_neg hb] at h2
        exact Bool.false_ne_true (h1.symm.trans h2)
    | fetchDone o =>
      simp only [step] at h2
      rw [if_pos hf] at h2
      cases o with
      | error e2 => exact Bool.false_ne_true (h1.symm.trans h2)
      | ok r =>
        simp only [update_info] at h2
        split at h2 <;> exact Bool.false_ne_true (h1.symm.trans h2)
    | downloadDone o =>
      simp only [step] at h2
      rw [h1] at h2
      simp only [Bool.false_eq_true, if_false] at h2
      exact Bool.false_ne_true (h1.symm.trans h2)

/-- Witness for the amended C5: in the state just before the download
click of the demo interaction, the download start is indeed possible and
the fetch flag is off. -/
theorem no_download_start_during_fetch_witness :
    (runTrace preDownloadEvents).fetchRunning = false :=
  no_download_start_during_fetch preDownloadEvents
    (Event.clickDownload (pstr "", true)) (by decide) (by decide)

end Main
